import Mathlib

/-
Verification of the goBuildMCP process-supervision core.

Shallow embedding of the two source files:
  * src/mcp-go-builder/server.py  (the `build` and `run` MCP tools), and
  * src/main.py                   (the HTTP handler `_build_and_run`).

External effects (filesystem listing, process spawning, process polling,
psutil process-table operations) are modelled as explicit environment
records supplied to the embedded functions; Python exceptions raised by
those primitives are modelled as `Except` values, and the source's
try/except structure is translated into explicit handling of those values.
The Unix (`os.name != "nt"`) branch of the source is the one embedded.
Wall-clock time is discretised into ticks of 0.1 s, the tick interval of
the supervision loop.
-/

set_option maxRecDepth 8000

namespace GoBuilder

/-- Result of a completed external command (`subprocess.run`): its exit
code and captured text streams. -/
structure ProcResult where
  exitCode : Int
  stdout : String
  stderr : String
deriving Repr, DecidableEq

/-- The two exception classes distinguished by `build` (server.py lines
101-106): `subprocess.SubprocessError` and a generic `Exception`. -/
inductive PyExc where
  | subprocessError (msg : String)
  | otherError (msg : String)
deriving Repr, DecidableEq

/-- One entry of `Path.iterdir()`: the entry name, whether `is_file()`
holds, and whether `os.access(file, os.X_OK)` holds. -/
structure Dirent where
  name : String
  isFile : Bool
  isExec : Bool
deriving Repr, DecidableEq

/-- Index of the last occurrence of a character in a list of characters
(Python `str.rfind`), if any. -/
def lastIdxOf (c : Char) : List Char → Option Nat
  | [] => none
  | a :: rest =>
    match lastIdxOf c rest with
    | some i => some (i + 1)
    | none => if a = c then some 0 else none

/-- Python `str.endswith`, computed on the character lists so that it
evaluates inside the kernel. -/
def nameEndsWith (s suffix : String) : Bool :=
  List.isSuffixOf suffix.data s.data

/-- Python `str.strip()`: remove whitespace from both ends. -/
def pyStrip (s : String) : String :=
  String.mk (((s.data.dropWhile Char.isWhitespace).reverse.dropWhile Char.isWhitespace).reverse)

/-- Python `pathlib.PurePath.stem`: the final component without its
suffix.  pathlib takes the suffix to be `name[i:]` where `i` is the index
of the last dot, provided `0 < i < len(name) - 1`; otherwise the name has
no suffix (`.bashrc`, `foo.`, `foo`) and the stem is the whole name. -/
def stem (s : String) : String :=
  match lastIdxOf '.' s.data with
  | some i => if 0 < i ∧ i + 1 < s.data.length then String.mk (s.data.take i) else s
  | none => s

/-- Executable candidates of a directory listing, in listing order
(server.py lines 156-163, repeated at 195-202 and 77-84): regular files
with the execute bit whose name does not end in `.go`. -/
def listingCandidates (l : List Dirent) : List String :=
  (l.filter (fun f => f.isFile && f.isExec && !(nameEndsWith f.name ".go"))).map (fun f => f.name)

/-- Executable selection among the candidates (server.py lines 165-178).
With more than one candidate the first whose `stem` equals the directory
name is chosen; failing that the first candidate is chosen and the
returned flag is `true`, meaning the line `Multiple executables found.
Using: ...` is emitted.  With exactly one candidate it is chosen silently;
with none the result is `none`. -/
def selectExecutable (dirName : String) (cands : List String) : Option (String × Bool) :=
  if cands.length > 1 then
    match cands.find? (fun n => decide (stem n = dirName)) with
    | some n => some (n, false)
    | none => cands.head?.map (fun c => (c, true))
  else
    cands.head?.map (fun c => (c, false))

/-- Spec-worded selector, parameterised by the key compared against the
directory base name, used to compare the code's policy against the
spec sentence. -/
def selectSpecBy (key : String → String) (dirName : String) (cands : List String) :
    Option (String × Bool) :=
  if cands.length > 1 then
    match (cands.filter (fun n => decide (key n = dirName))).head? with
    | some n => some (n, false)
    | none => cands.head?.map (fun c => (c, true))
  else
    cands.head?.map (fun c => (c, false))

/-- Modelled from the spec: the claim's literal policy, preferring the
candidate whose base name (full file name) equals the directory's base
name. -/
def selectSpecBasename : String → List String → Option (String × Bool) :=
  selectSpecBy (fun n => n)

/-- The amended policy: prefer the candidate whose stem (file name
stripped of its final extension) equals the directory's base name. -/
def selectSpecStem : String → List String → Option (String × Bool) :=
  selectSpecBy stem

/-- A file tree rooted at the project directory, for the recursive glob
in `build`. -/
inductive FTree where
  | file (name : String)
  | dir (entries : List FTree)
deriving Repr

mutual

/-- `project_path.glob("**/*.go")` (server.py line 34): every `.go` file
anywhere in the tree, recursively. -/
def globGo : FTree → List String
  | FTree.file n => if nameEndsWith n ".go" then [n] else []
  | FTree.dir es => globGoList es

/-- Recursive helper of `globGo` over a list of entries. -/
def globGoList : List FTree → List String
  | [] => []
  | t :: ts => globGo t ++ globGoList ts

end

/-- Message of server.py line 30 and line 145. -/
def dirErrLine (d : String) : String := s!"Error: Directory \x27{d}\x27 does not exist"

/-- Message of server.py line 36. -/
def noGoFilesLine (d : String) : String := s!"Error: No Go source files found in \x27{d}\x27"

/-- Message of server.py line 175. -/
def ambLine (n : String) : String := s!"Multiple executables found. Using: {n}"

/-- Message of server.py line 394. -/
def spawnErrLine (e : String) : String := s!"Unexpected error during execution: {e}"

/-- Message of server.py line 390. -/
def plannedLine : String := "Process ran and was terminated after 5 seconds as planned"

/-- Message of server.py lines 50-52. -/
def tidyWarnLine (e : String) : String := s!"Warning during \x27go mod tidy\x27: {e}"

/-- Exception rendering of the two handlers of `build` (server.py lines
101-106). -/
def buildExcLine : PyExc → String
  | PyExc.subprocessError m => s!"Error executing Go build command: {m}"
  | PyExc.otherError m => s!"Unexpected error during build process: {m}"

/-- Environment of one `build` call: the external facts it consults and
the outcomes of the external commands it runs.  `tree` is the project
directory's file tree, `listing` its flat listing after the build. -/
structure BuildEnv where
  dirExists : Bool
  tree : FTree
  goModExists : Bool
  tidyOutcome : Except PyExc ProcResult
  buildOutcome : Except PyExc ProcResult
  listing : List Dirent

/-- Result of `build`: the output lines (joined with newlines on return),
the success flag, and the external commands actually invoked, in order. -/
structure BuildOut where
  lines : List String
  success : Bool
  cmds : List String
deriving Repr, DecidableEq

/-- The joined output string returned by `build` (server.py lines 108-110). -/
def BuildOut.output (b : BuildOut) : String := String.intercalate "\n" b.lines

/-- The `go build -v .` step and everything after it (server.py lines
54-99), shared by the with- and without-go.mod paths.  `lines` and `cmds`
are what was accumulated before this step. -/
def buildStep (env : BuildEnv) (lines : List String) (cmds : List String) : BuildOut :=
  match env.buildOutcome with
  | Except.error e => ⟨lines ++ [buildExcLine e], false, cmds ++ ["go build -v ."]⟩
  | Except.ok bp =>
    let l1 := lines ++ (if bp.stdout = "" then [] else [(pyStrip bp.stdout)])
    if bp.exitCode = 0 then
      let execs := listingCandidates env.listing
      let l2 := l1 ++ ["Build successful ✓"]
      let l3 :=
        if execs.isEmpty then
          l2 ++ ["Note: No executables found in the project directory. Check your GOPATH/bin directory if you\x27re using \x27go install\x27."]
        else
          let joined := String.intercalate ", " execs
          l2 ++ [s!"Executable(s) created: {joined}"]
      ⟨l3, true, cmds ++ ["go build -v ."]⟩
    else
      let l3 := l1 ++ ["Build failed ✗"] ++
        (if bp.stderr = "" then [] else [s!"Error details:\n{(pyStrip bp.stderr)}"])
      ⟨l3, false, cmds ++ ["go build -v ."]⟩

/-- server.py `build` (lines 16-110): validate the directory, require at
least one `.go` file anywhere in the tree, optionally run `go mod tidy`
(a nonzero tidy exit only adds a warning line), then run `go build -v .`
whose exit code decides the success flag.  Exceptions raised by the
external commands are caught and rendered as output lines with
success = false. -/
def build (project_dir : String) (env : BuildEnv) : BuildOut :=
  if env.dirExists = false then ⟨[dirErrLine project_dir], false, []⟩
  else if (globGo env.tree).isEmpty then ⟨[noGoFilesLine project_dir], false, []⟩
  else
    let l1 := [s!"Building Go project in {project_dir}..."]
    if env.goModExists then
      let l2 := l1 ++ ["Found go.mod file, running \x27go mod tidy\x27"]
      match env.tidyOutcome with
      | Except.error e => ⟨l2 ++ [buildExcLine e], false, ["go mod tidy"]⟩
      | Except.ok tp =>
        let l3 := if tp.exitCode ≠ 0 then l2 ++ [tidyWarnLine (pyStrip tp.stderr)] else l2
        buildStep env l3 ["go mod tidy"]
    else
      buildStep env l1 []

/-- A child process in the tree rooted at the supervised process:
whether it is currently alive, and whether `kill()` on it fails with an
OS error (e.g. access denied) so the process survives. -/
structure PChild where
  alive : Bool
  killFails : Bool
deriving Repr, DecidableEq

/-- The process tree rooted at the supervised process, as seen by
psutil. -/
structure PTree where
  rootAlive : Bool
  rootKillFails : Bool
  children : List PChild
deriving Repr, DecidableEq

/-- `child.kill()` wrapped in its own try/except that swallows any
failure (server.py lines 239-242 and 252-255): the child dies exactly
when it was alive and its kill does not fail. -/
def killOne (c : PChild) : PChild :=
  if c.alive && !c.killFails then { c with alive := false } else c

/-- One round of kills over the children (server.py lines 238-242, and
again at 251-255 for the processes still alive after `wait_procs`). -/
def killChildren (cs : List PChild) : List PChild :=
  cs.map killOne

/-- Body of `kill_process_tree` inside the outer `try` (server.py lines
231-255).  `psutil.Process(pid)` raises `NoSuchProcess` when the root is
already dead; `parent.kill()` raises when the root kill fails; both
propagate out of the body (as the `Except.error`).  Child kills and the
force-kill round after `wait_procs` never propagate. -/
def killTreeBody (t : PTree) : PTree × Except String Unit :=
  if t.rootAlive = false then (t, Except.error "psutil.NoSuchProcess")
  else
    let cs1 := killChildren t.children
    if t.rootKillFails then ({ t with children := cs1 }, Except.error "psutil.AccessDenied")
    else ({ t with rootAlive := false, children := killChildren cs1 }, Except.ok ())

/-- Message of server.py line 258. -/
def killErrLine (e : String) : String := s!"Error killing process tree: {e}"

/-- server.py `kill_process_tree` (lines 230-263): run the body; on any
exception append an error line and fall back to a direct `os.kill` that
is itself wrapped in try/except pass (it succeeds only when the root is
alive and killable).  The function never raises. -/
def kill_process_tree (t : PTree) : PTree × List String :=
  match killTreeBody t with
  | (t1, Except.ok _) => (t1, [])
  | (t1, Except.error e) =>
    let t2 := if t1.rootAlive && !t1.rootKillFails then { t1 with rootAlive := false } else t1
    (t2, [killErrLine e])

/-- Exit status recorded by the supervision phase. -/
inductive ExitStatus where
  | notStarted
  | exited (code : Int)
  | timedOut
deriving Repr, DecidableEq

/-- `process.poll()` at a given tick: the exit code once the process has
exited, `none` while it is still running.  `procExit = some (t, c)`
means the process exits by itself at tick `t` with code `c`;
`procExit = none` means it never exits by itself. -/
def pollExit (procExit : Option (Nat × Int)) (tick : Nat) : Option Int :=
  match procExit with
  | some tc => if tc.1 ≤ tick then some tc.2 else none
  | none => none

/-- The supervision loop (server.py lines 303-345), one tick of 0.1 s per
iteration.  Each iteration first compares the elapsed time against
`MAX_RUNTIME = 5` seconds (`elapsed > 5` first holds at tick 51) and
breaks on timeout, then polls the process and breaks on natural exit.
`remaining` is `51 - tick`, so `remaining = 0` is exactly the timeout
break; the recursion is structural on it.  Returns the final tick and the
natural exit code, if any. -/
def runLoopGo (procExit : Option (Nat × Int)) : Nat → Nat → Nat × Option Int
  | tick, 0 => (tick, none)
  | tick, r + 1 =>
    match pollExit procExit tick with
    | some c => (tick, some c)
    | none => runLoopGo procExit (tick + 1) r

/-- The supervision loop started at tick 0. -/
def runLoop (procExit : Option (Nat × Int)) : Nat × Option Int :=
  runLoopGo procExit 0 51

/-- Environment of one `run` call.  `listing` is the directory listing at
entry, `listing2` the listing after the in-call build, `buildEnv` the
environment handed to that build.  `spawn` is the outcome of
`subprocess.Popen` (error = the exception's text), `procExit` the
process's natural-exit behaviour, `ptree` its process tree at the
termination step, `loopStdout`/`loopStderr` the stream lines drained
during the loop, and `communicateOk`/`finalStdout`/`finalStderr` the
behaviour of the final `process.communicate(timeout=1)`. -/
structure RunEnv where
  dirExists : Bool
  dirName : String
  listing : List Dirent
  buildEnv : BuildEnv
  listing2 : List Dirent
  spawn : Except String Unit
  procExit : Option (Nat × Int)
  ptree : PTree
  loopStdout : List String
  loopStderr : List String
  communicateOk : Bool
  finalStdout : List String
  finalStderr : List String

/-- Everything the supervision phase produces after a successful spawn:
the lines it appends after the `Running: ...` line, the success flag, the
exit status, and the tick at which the loop stopped. -/
structure SupOut where
  lines : List String
  success : Bool
  status : ExitStatus
  loopTicks : Nat
deriving Repr, DecidableEq

/-- The supervision phase (server.py lines 265-391): run the polling
loop; on natural exit set `success = (exit_code == 0)`, on timeout leave
it false; if the process is still alive run `kill_process_tree` and warn
when the root survived; drain remaining output via `communicate`; emit
the captured streams; finally (lines 386-391) flip any false success to
true, appending the terminated-as-planned line. -/
def supervise (env : RunEnv) : SupOut :=
  let r := runLoop env.procExit
  let l2 : List String :=
    match r.2 with
    | some c => [s!"Process exited with code {c}"]
    | none => ["Reached maximum runtime of 5 seconds, terminating..."]
  let success0 : Bool :=
    match r.2 with
    | some c => decide (c = 0)
    | none => false
  let status : ExitStatus :=
    match r.2 with
    | some c => ExitStatus.exited c
    | none => ExitStatus.timedOut
  let kl : List String :=
    if (pollExit env.procExit r.1).isNone then
      let kr := kill_process_tree env.ptree
      let base := ["Forcibly terminating process..."] ++ kr.2
      if kr.1.rootAlive then base ++ ["Warning: Process may still be running!"] else base
    else []
  let commOut := if env.communicateOk then env.finalStdout else []
  let commErr := if env.communicateOk then env.finalStderr else []
  let stdoutL := env.loopStdout ++ commOut
  let stderrL := env.loopStderr ++ commErr
  let l4 := l2 ++ kl ++ (if stdoutL.isEmpty then [] else "Standard Output:" :: stdoutL)
    ++ (if stderrL.isEmpty then [] else "Standard Error:" :: stderrL)
  if success0 = false then ⟨l4 ++ [plannedLine], true, status, r.1⟩
  else ⟨l4, success0, status, r.1⟩

/-- Ghost instrumentation of one `run` call: how many times the inline
executable enumeration ran (server.py lines 150-163 and 190-202), how
many times `build` was invoked, how many processes were spawned, the
recorded exit status, and the tick count of the supervision loop. -/
structure RunTrace where
  locateCalls : Nat
  buildCalls : Nat
  spawnCount : Nat
  status : ExitStatus
  loopTicks : Nat
deriving Repr, DecidableEq

/-- Observable result of `run`: the output lines (joined with newlines on
return, server.py lines 406-408) and the success flag. -/
structure RunOut where
  lines : List String
  success : Bool
deriving Repr, DecidableEq

/-- Execution of `run` from the point where an executable has been
resolved (server.py lines 212-391): emit the `Running:` line, spawn the
process (a spawn exception is caught by the handler at lines 393-395 and
rendered with success = false), then supervise.  `lines0` are the lines
accumulated during resolution, `lc`/`bc` the locator/build counts. -/
def runWith (args : List String) (env : RunEnv) (exe : String)
    (lines0 : List String) (lc bc : Nat) : RunOut × RunTrace :=
  let cmdline := String.intercalate " " (exe :: args)
  let l1 := lines0 ++ [s!"Running: {cmdline}"]
  match env.spawn with
  | Except.error e =>
    (⟨l1 ++ [spawnErrLine e], false⟩, ⟨lc, bc, 0, ExitStatus.notStarted, 0⟩)
  | Except.ok _ =>
    let s := supervise env
    (⟨l1 ++ s.lines, s.success⟩, ⟨lc, bc, 1, s.status, s.loopTicks⟩)

/-- server.py `run` (lines 114-408), Unix branch, with the argument
string already split.  `timeout_seconds` is accepted and never read, as
in the source.  Validate the directory, locate the executable; if none,
build once and re-locate once (on build failure return immediately; the
retry path takes the first candidate without disambiguation, lines
204-205, and returns a bare error string when still empty, lines
207-210); then supervise the resolved executable. -/
def run (project_dir : String) (args : List String) (timeout_seconds : Nat)
    (env : RunEnv) : RunOut × RunTrace :=
  if env.dirExists = false then
    (⟨[dirErrLine project_dir], false⟩, ⟨0, 0, 0, ExitStatus.notStarted, 0⟩)
  else
    match selectExecutable env.dirName (listingCandidates env.listing) with
    | some ea =>
      runWith args env ea.1 (if ea.2 then [ambLine ea.1] else []) 1 0
    | none =>
      let l0 := ["No executable found. Attempting to build first..."]
      let b := build project_dir env.buildEnv
      let l1 := l0 ++ [b.output]
      if b.success = false then (⟨l1, false⟩, ⟨1, 1, 0, ExitStatus.notStarted, 0⟩)
      else
        match listingCandidates env.listing2 with
        | [] =>
          (⟨[s!"Error: Unable to find or build an executable in \x27{project_dir}\x27"], false⟩,
           ⟨2, 1, 0, ExitStatus.notStarted, 0⟩)
        | exe :: _ => runWith args env exe l1 2 1

/-- Environment of one `_build_and_run` call in main.py: outcome of
`os.chdir(directory_path)`, of the `os.path.samefile` check, of the
`go build .` command, the binary located by the two search strategies
(directory-name convention at lines 108-112, executable scan at lines
115-128), and the outcome of running the binary.  Errors model raised
exceptions. -/
structure BAREnv where
  chdirOutcome : Except String Unit
  samefileOk : Bool
  buildOutcome : Except String ProcResult
  dirBinary : Option String
  searchBinary : Option String
  runOutcome : Except String ProcResult

/-- JSON reply of `_build_and_run`. -/
structure BARReply where
  buildSuccess : Bool
  output : String
deriving Repr, DecidableEq

deriving instance DecidableEq for Except

/-- Observable outcome of `_build_and_run`: the reply, or the exception
that escaped it; the final working directory of the server process; and
the targets of every `os.chdir` performed, in order. -/
structure BAROut where
  reply : Except String BARReply
  cwd : String
  chdirCalls : List String
deriving Repr, DecidableEq

/-- main.py `_build_and_run` (lines 70-156): remember the current
directory, chdir into the project, verify, build, locate the binary, run
it; each failure returns a reply (or lets the exception propagate), and
the `finally` block (lines 153-156) chdirs back to the original
directory on every exit path.  The pair returned by the body is the body
result together with the chdir targets issued inside the `try`. -/
def buildAndRunBody (directory_path : String) (env : BAREnv) :
    Except String BARReply × List String :=
  match env.chdirOutcome with
  | Except.error e => (Except.error e, [])
  | Except.ok _ =>
    if env.samefileOk = false then
      (Except.ok ⟨false, s!"Failed to change to correct directory. Expected: {directory_path}"⟩,
       [directory_path])
    else
      match env.buildOutcome with
      | Except.error e => (Except.error e, [directory_path])
      | Except.ok bp =>
        if bp.exitCode ≠ 0 then (Except.ok ⟨false, bp.stderr⟩, [directory_path])
        else
          match (match env.dirBinary with | some b => some b | none => env.searchBinary) with
          | none =>
            (Except.ok ⟨true, "Build successful, but couldn\x27t find the binary to execute."⟩,
             [directory_path])
          | some _ =>
            match env.runOutcome with
            | Except.error e => (Except.error e, [directory_path])
            | Except.ok rp =>
              (Except.ok ⟨true, rp.stdout ++ (if rp.stderr ≠ "" then "\n" ++ rp.stderr else "")⟩,
               [directory_path])

/-- main.py `_build_and_run` with its `finally` block: whatever the body
did — return a reply or raise — the last action is `os.chdir(original_dir)`,
so the final working directory is the one saved on entry. -/
def buildAndRun (directory_path : String) (env : BAREnv) (cwd0 : String) : BAROut :=
  let original_dir := cwd0
  let body := buildAndRunBody directory_path env
  ⟨body.1, original_dir, body.2 ++ [original_dir]⟩

/-- A build environment whose tree holds no `.go` file anywhere
(recursively), used as concrete input. -/
def benvNoGo : BuildEnv :=
  ⟨true, FTree.dir [FTree.file "README.md", FTree.dir [FTree.file "notes.txt"]],
   false, Except.ok ⟨0, "", ""⟩, Except.ok ⟨0, "", ""⟩, []⟩

/-- A build environment with a `.go` file and succeeding commands. -/
def benvOk : BuildEnv :=
  ⟨true, FTree.dir [FTree.file "main.go"], false,
   Except.ok ⟨0, "", ""⟩, Except.ok ⟨0, "", ""⟩, []⟩

/-- A run environment with no executable candidate whose build finds no
`.go` files and therefore fails. -/
def envC3 : RunEnv :=
  ⟨true, "proj", [], benvNoGo, [], Except.ok (), none,
   ⟨false, false, []⟩, [], [], true, [], []⟩

/-- A run environment for a directory holding a single executable whose
process never exits by itself (an infinite loop). -/
def envLoop : RunEnv :=
  ⟨true, "proj", [⟨"proj", true, true⟩], benvOk, [], Except.ok (), none,
   ⟨true, false, []⟩, [], [], true, [], []⟩

/-- Like `envLoop`, but the process exits naturally at tick 0 with exit
code 1. -/
def envExit1 : RunEnv :=
  ⟨true, "proj", [⟨"proj", true, true⟩], benvOk, [], Except.ok (), some (0, 1),
   ⟨false, false, []⟩, [], [], true, [], []⟩

example : listingCandidates envLoop.listing = ["proj"] := by decide

example : stem "app.v2" = "app" := by decide

example : stem ".bashrc" = ".bashrc" := by decide

example : stem "foo." = "foo." := by decide

example : selectExecutable "app.v2" ["zzz", "app.v2"] = some ("zzz", true) := by decide

example : (run "proj" [] 60 envExit1).1.success = true := by decide

example : (run "proj" [] 60 envExit1).2.status = ExitStatus.exited 1 := by decide

example : (run "proj" [] 1 envLoop).2.loopTicks = 51 := by decide

example : (run "proj" [] 1 envLoop).2.status = ExitStatus.timedOut := by decide

example : (run "proj" [] 60 envC3).2 = ⟨1, 1, 0, ExitStatus.notStarted, 0⟩ := by decide

example : globGo benvNoGo.tree = [] := by decide

/-- `List.find?` returns the head of the filtered list. -/
lemma find?_eq_filterHead {α : Type} (p : α → Bool) (l : List α) :
    l.find? p = (l.filter p).head? := by
  induction l with
  | nil => rfl
  | cons a t ih =>
    cases h : p a with
    | true =>
      rw [List.find?_cons_of_pos t h, List.filter_cons_of_pos h, List.head?_cons]
    | false =>
      rw [List.find?_cons_of_neg t (by simp [h]), List.filter_cons_of_neg (by simp [h]), ih]

/-- A process that never exits keeps the loop polling until the timeout
break. -/
lemma runLoopGo_none (r t : Nat) : runLoopGo none t r = (t + r, none) := by
  induction r generalizing t with
  | zero => simp [runLoopGo]
  | succ n ih =>
    rw [show t + (n + 1) = (t + 1) + n by omega]
    simp [runLoopGo, pollExit, ih]

/-- A single kill round is idempotent on a child. -/
lemma killOne_idem (c : PChild) : killOne (killOne c) = killOne c := by
  by_cases h : (c.alive && !c.killFails) = true <;> simp [killOne, h]

/-- A kill round over the children is idempotent. -/
lemma killChildren_idem (cs : List PChild) : killChildren (killChildren cs) = killChildren cs := by
  simp only [killChildren, List.map_map]
  congr 1
  funext c
  exact killOne_idem c

/-- The supervision phase always reports success (server.py lines
386-391 flip any false flag). -/
lemma supervise_success (env : RunEnv) : (supervise env).success = true := by
  simp only [supervise]
  split
  · rfl
  · rename_i h
    simpa using h

/-- The status recorded by the supervision phase is decided by the loop
outcome alone. -/
lemma supervise_status (env : RunEnv) :
    (supervise env).status =
      (match (runLoop env.procExit).2 with
       | some c => ExitStatus.exited c
       | none => ExitStatus.timedOut) := by
  simp only [supervise]
  split <;> rfl

/-- The tick count recorded by the supervision phase is the loop's final
tick. -/
lemma supervise_loopTicks (env : RunEnv) :
    (supervise env).loopTicks = (runLoop env.procExit).1 := by
  simp only [supervise]
  split <;> rfl

/-- For a process that never exits by itself the supervision phase times
out at tick 51 and still reports success. -/
lemma supervise_none (env : RunEnv) (hpe : env.procExit = none) :
    (supervise env).status = ExitStatus.timedOut ∧
    (supervise env).loopTicks = 51 ∧
    (supervise env).success = true := by
  have hr : runLoop env.procExit = (51, none) := by
    rw [hpe, runLoop, runLoopGo_none]
  refine ⟨?_, ?_, supervise_success env⟩
  · rw [supervise_status, hr]
  · rw [supervise_loopTicks, hr]

/-- The locator count recorded by `runWith` is its argument. -/
lemma runWith_locateCalls (args : List String) (env : RunEnv) (exe : String)
    (l0 : List String) (lc bc : Nat) :
    (runWith args env exe l0 lc bc).2.locateCalls = lc := by
  cases hs : env.spawn <;> simp [runWith, hs]

/-- The build count recorded by `runWith` is its argument. -/
lemma runWith_buildCalls (args : List String) (env : RunEnv) (exe : String)
    (l0 : List String) (lc bc : Nat) :
    (runWith args env exe l0 lc bc).2.buildCalls = bc := by
  cases hs : env.spawn <;> simp [runWith, hs]

/-- `runWith` spawns at most one process. -/
lemma runWith_spawnCount_le (args : List String) (env : RunEnv) (exe : String)
    (l0 : List String) (lc bc : Nat) :
    (runWith args env exe l0 lc bc).2.spawnCount ≤ 1 := by
  cases hs : env.spawn <;> simp [runWith, hs]

/-- Lines accumulated before the supervision phase survive into its
output. -/
lemma runWith_mem (args : List String) (env : RunEnv) (exe : String)
    (l0 : List String) (lc bc : Nat) (x : String) (hx : x ∈ l0) :
    x ∈ (runWith args env exe l0 lc bc).1.lines := by
  cases hs : env.spawn <;> simp [runWith, hs, List.mem_append] <;> tauto

/-- A run environment whose directory does not exist. -/
def envNoDir : RunEnv :=
  ⟨false, "gone", [], benvNoGo, [], Except.ok (), none,
   ⟨false, false, []⟩, [], [], true, [], []⟩

/-- A build environment whose directory does not exist. -/
def benvNoDir : BuildEnv :=
  ⟨false, FTree.dir [], false, Except.ok ⟨0, "", ""⟩, Except.ok ⟨0, "", ""⟩, []⟩

/-- A run environment with no candidate at entry whose build succeeds and
produces an executable, so the locator is re-run and finds it. -/
def envRebuild : RunEnv :=
  ⟨true, "proj", [], benvOk, [⟨"proj", true, true⟩], Except.ok (), some (0, 0),
   ⟨false, false, []⟩, [], [], true, [], []⟩

/-- A run environment with two executables, neither named after the
directory, forcing the ambiguity report. -/
def envAmb : RunEnv :=
  ⟨true, "proj", [⟨"alpha", true, true⟩, ⟨"beta", true, true⟩], benvOk, [],
   Except.ok (), some (0, 0), ⟨false, false, []⟩, [], [], true, [], []⟩

/-- A run environment whose `subprocess.Popen` raises. -/
def envSpawnErr : RunEnv :=
  ⟨true, "proj", [⟨"proj", true, true⟩], benvOk, [], Except.error "spawn boom", none,
   ⟨false, false, []⟩, [], [], true, [], []⟩

/-- A build environment whose `go mod tidy` invocation raises. -/
def benvTidyErr : BuildEnv :=
  ⟨true, FTree.dir [FTree.file "main.go"], true,
   Except.error (PyExc.subprocessError "tidy boom"), Except.ok ⟨0, "", ""⟩, []⟩

/-- A build environment whose `go build` invocation raises. -/
def benvBuildErr : BuildEnv :=
  ⟨true, FTree.dir [FTree.file "main.go"], false,
   Except.ok ⟨0, "", ""⟩, Except.error (PyExc.subprocessError "build boom"), []⟩

/-- A build environment whose `go mod tidy` exits nonzero while
`go build` succeeds. -/
def benvTidyWarn : BuildEnv :=
  ⟨true, FTree.dir [FTree.file "main.go"], true,
   Except.ok ⟨1, "", "dep gone"⟩, Except.ok ⟨0, "", ""⟩, []⟩

/-- A process tree whose root is already dead. -/
def deadTree : PTree := ⟨false, false, []⟩

/-- The bound asserted by the caller-deadline claim, in ticks of 0.1 s:
the call returns within the caller-supplied deadline of `d` seconds plus
a grace period of at most one second. -/
abbrev claimWithinDeadline (d : Nat) (t : RunTrace) : Prop :=
  t.loopTicks ≤ 10 * d + 10

/-- A failing `go build -v .` command is rendered as data. -/
lemma buildStep_error (env : BuildEnv) (l c : List String) (e : PyExc)
    (hb : env.buildOutcome = Except.error e) :
    buildStep env l c = ⟨l ++ [buildExcLine e], false, c ++ ["go build -v ."]⟩ := by
  simp [buildStep, hb]

/-- The success flag of the build step is exactly the exit-code test of
the `go build` command. -/
lemma buildStep_success (env : BuildEnv) (l c : List String) (bp : ProcResult)
    (hb : env.buildOutcome = Except.ok bp) :
    (buildStep env l c).success = decide (bp.exitCode = 0) := by
  by_cases h0 : bp.exitCode = 0 <;> simp [buildStep, hb, h0]

/-- Lines accumulated before the build step survive into its output. -/
lemma buildStep_mem (env : BuildEnv) (l c : List String) (x : String) (hx : x ∈ l) :
    x ∈ (buildStep env l c).lines := by
  cases hb : env.buildOutcome with
  | error e => simp [buildStep, hb, List.mem_append, hx]
  | ok bp =>
    simp only [buildStep, hb]
    by_cases h0 : bp.exitCode = 0
    · simp [h0]
      split <;> simp [List.mem_append, hx]
    · simp [h0, List.mem_append, hx]

/-- C1: the claim fails on the code.  In `run`, a process that exits
naturally with a nonzero code sets `success = exit_code == 0` (line 316),
but the flip at lines 386-391 turns every false flag into true, so the
run is reported with `success = true` and the spurious line "Process ran
and was terminated after 5 seconds as planned" — contradicting both the
code's own comment at line 387 ("Only change if not already set": line
316 had deliberately set it) and the spec's invariant.  Evaluated here at
the failing input: a process that exits at tick 0 with code 1. -/
theorem run_reports_nonzero_exit_as_success :
    (run "proj" [] 60 envExit1).2.status = ExitStatus.exited 1 ∧
    (run "proj" [] 60 envExit1).1.success = true ∧
    plannedLine ∈ (run "proj" [] 60 envExit1).1.lines := by
  refine ⟨by decide, by decide, ?_⟩
  decide

/-- C2 counterexample: the claim, as stated, is false at the concrete
input `timeout_seconds = 1` with a never-terminating process: the loop
runs to tick 51 (5.1 s), far beyond the caller-supplied deadline of 1 s
plus a 1 s grace period, because `run` ignores `timeout_seconds` and
hard-codes `MAX_RUNTIME = 5`. -/
theorem run_ignores_caller_deadline_cex :
    (run "proj" [] 1 envLoop).2.loopTicks = 51 ∧
    ¬ claimWithinDeadline 1 ((run "proj" [] 1 envLoop).2) ∧
    (run "proj" [] 1 envLoop).2.status = ExitStatus.timedOut ∧
    (run "proj" [] 1 envLoop).1.success = true := by
  refine ⟨by decide, by decide, by decide, by decide⟩

/-- C2 amended: for every caller-supplied `timeout_seconds`, a supervised
run of a non-terminating program returns after the hard-coded 5-second
deadline (the loop stops at tick 51) plus the bounded grace period, with
timed-out status and success = true; the caller-supplied value is ignored
and the result is identical for any two values of it. -/
theorem run_fixed_deadline (dir : String) (args : List String) (d d2 : Nat)
    (env : RunEnv) (ea : String × Bool)
    (hd : env.dirExists = true)
    (hsel : selectExecutable env.dirName (listingCandidates env.listing) = some ea)
    (hsp : env.spawn = Except.ok ())
    (hpe : env.procExit = none) :
    (run dir args d env).2.loopTicks = 51 ∧
    (run dir args d env).2.status = ExitStatus.timedOut ∧
    (run dir args d env).1.success = true ∧
    claimWithinDeadline 5 ((run dir args d env).2) ∧
    run dir args d env = run dir args d2 env := by
  have h1 : run dir args d env =
      runWith args env ea.1 (if ea.2 then [ambLine ea.1] else []) 1 0 := by
    simp [run, hd, hsel]
  have h2s : (runWith args env ea.1 (if ea.2 then [ambLine ea.1] else []) 1 0).1.success =
      (supervise env).success := by
    simp [runWith, hsp]
  have h2t : (runWith args env ea.1 (if ea.2 then [ambLine ea.1] else []) 1 0).2 =
      ⟨1, 0, 1, (supervise env).status, (supervise env).loopTicks⟩ := by
    simp [runWith, hsp]
  obtain ⟨hst, hlt, hsu⟩ := supervise_none env hpe
  refine ⟨?_, ?_, ?_, ?_, rfl⟩
  · rw [h1, h2t]; exact hlt
  · rw [h1, h2t]; exact hst
  · rw [h1]; rw [h2s]; exact hsu
  · show (run dir args d env).2.loopTicks ≤ 10 * 5 + 10
    rw [h1, h2t]
    show (supervise env).loopTicks ≤ 10 * 5 + 10
    rw [hlt]
    omega

/-- C2 witness: the amended theorem applied to the concrete
never-terminating run environment with caller deadlines 1 and 99. -/
theorem run_fixed_deadline_witness :
    (run "proj" [] 1 envLoop).2.loopTicks = 51 ∧
    (run "proj" [] 1 envLoop).2.status = ExitStatus.timedOut ∧
    (run "proj" [] 1 envLoop).1.success = true ∧
    claimWithinDeadline 5 ((run "proj" [] 1 envLoop).2) ∧
    run "proj" [] 1 envLoop = run "proj" [] 99 envLoop :=
  run_fixed_deadline "proj" [] 1 99 envLoop ("proj", false) rfl rfl rfl rfl

/-- C3 counterexample: at a directory with no executable candidate whose
build fails, exactly one build attempt is made but the locator is NOT
re-run (it ran only once, at entry), contrary to the claim's "the locator
is re-run exactly once" — the code returns at line 187 before the second
enumeration. -/
theorem run_no_relocate_on_failed_build_cex :
    (run "proj" [] 60 envC3).2.buildCalls = 1 ∧
    (run "proj" [] 60 envC3).2.locateCalls = 1 ∧
    ¬ (run "proj" [] 60 envC3).2.locateCalls = 2 ∧
    (run "proj" [] 60 envC3).1.success = false ∧
    (run "proj" [] 60 envC3).2.spawnCount = 0 := by
  refine ⟨by decide, by decide, by decide, by decide, by decide⟩

/-- C3 amended: for every directory in which the locator finds no
executable candidate, exactly one build attempt is made; the locator is
re-run exactly once when that build reports success (on build failure the
call returns immediately, with the locator having run only once); if the
build fails, or still no executable is found after the re-run, the call
returns success = false without ever starting a process; and the
supervised run is never retried (at most one spawn). -/
theorem run_single_build_attempt (dir : String) (args : List String) (t : Nat)
    (env : RunEnv)
    (hd : env.dirExists = true) (hl : listingCandidates env.listing = []) :
    (run dir args t env).2.buildCalls = 1 ∧
    ((build dir env.buildEnv).success = false →
      (run dir args t env).2.locateCalls = 1 ∧ (run dir args t env).1.success = false ∧
      (run dir args t env).2.spawnCount = 0) ∧
    ((build dir env.buildEnv).success = true → (run dir args t env).2.locateCalls = 2) ∧
    ((build dir env.buildEnv).success = true → listingCandidates env.listing2 = [] →
      (run dir args t env).1.success = false ∧ (run dir args t env).2.spawnCount = 0) ∧
    (run dir args t env).2.spawnCount ≤ 1 := by
  have hsel : selectExecutable env.dirName (listingCandidates env.listing) = none := by
    rw [hl]; rfl
  cases hb : (build dir env.buildEnv).success with
  | false =>
    refine ⟨?_, fun _ => ⟨?_, ?_, ?_⟩, ?_, ?_, ?_⟩ <;> simp [run, hd, hsel, hb]
  | true =>
    cases hc2 : listingCandidates env.listing2 with
    | nil =>
      refine ⟨?_, ?_, ?_, ?_, ?_⟩ <;> simp [run, hd, hsel, hb, hc2]
    | cons e rest =>
      refine ⟨?_, ?_, ?_, ?_, ?_⟩ <;>
        simp [run, hd, hsel, hb, hc2, runWith_locateCalls, runWith_buildCalls,
          runWith_spawnCount_le]

/-- The observable success flag and trace of `runWith` do not depend on
the process tree handed to the termination step. -/
lemma runWith_ptree (args : List String) (env : RunEnv) (p1 p2 : PTree)
    (exe : String) (l0 : List String) (lc bc : Nat) :
    (runWith args { env with ptree := p1 } exe l0 lc bc).1.success =
      (runWith args { env with ptree := p2 } exe l0 lc bc).1.success ∧
    (runWith args { env with ptree := p1 } exe l0 lc bc).2 =
      (runWith args { env with ptree := p2 } exe l0 lc bc).2 := by
  cases hsp : env.spawn with
  | error e => constructor <;> simp [runWith, hsp]
  | ok u =>
    constructor
    · simp [runWith, hsp, supervise_success]
    · simp [runWith, hsp, supervise_status, supervise_loopTicks]

/-- C4: termination is idempotent and failures never escalate.  On an
already-dead root, the body raises `NoSuchProcess`, the handler catches
it, logs it, and leaves the process state unchanged; running the
termination step on the state left by a previous run changes nothing
further; and the run's reported success and trace are independent of
whatever the termination step encounters (kill failures only add log
lines, they never change the result). -/
theorem kill_process_tree_idempotent :
    (∀ t : PTree, t.rootAlive = false →
        (killTreeBody t).2 = Except.error "psutil.NoSuchProcess" ∧
        kill_process_tree t = (t, [killErrLine "psutil.NoSuchProcess"])) ∧
    (∀ t : PTree, (kill_process_tree (kill_process_tree t).1).1 = (kill_process_tree t).1) ∧
    (∀ (dir : String) (args : List String) (ts : Nat) (env : RunEnv) (p1 p2 : PTree),
        (run dir args ts { env with ptree := p1 }).1.success =
          (run dir args ts { env with ptree := p2 }).1.success ∧
        (run dir args ts { env with ptree := p1 }).2 =
          (run dir args ts { env with ptree := p2 }).2) := by
  refine ⟨?_, ?_, ?_⟩
  · intro t h
    constructor
    · simp [killTreeBody, h]
    · simp [kill_process_tree, killTreeBody, h]
  · intro t
    cases h1 : t.rootAlive with
    | false => simp [kill_process_tree, killTreeBody, h1]
    | true =>
      cases h2 : t.rootKillFails with
      | false => simp [kill_process_tree, killTreeBody, h1, h2]
      | true => simp [kill_process_tree, killTreeBody, h1, h2, killChildren_idem]
  · intro dir args ts env p1 p2
    by_cases hd : env.dirExists = true
    case neg =>
      rw [Bool.not_eq_true] at hd
      constructor <;> simp [run, hd]
    case pos =>
      cases hsel : selectExecutable env.dirName (listingCandidates env.listing) with
      | some ea =>
        have e1 : run dir args ts { env with ptree := p1 } =
            runWith args { env with ptree := p1 } ea.1
              (if ea.2 then [ambLine ea.1] else []) 1 0 := by
          simp [run, hd, hsel]
        have e2 : run dir args ts { env with ptree := p2 } =
            runWith args { env with ptree := p2 } ea.1
              (if ea.2 then [ambLine ea.1] else []) 1 0 := by
          simp [run, hd, hsel]
        rw [e1, e2]
        exact runWith_ptree args env p1 p2 ea.1 _ 1 0
      | none =>
        cases hb : (build dir env.buildEnv).success with
        | false => constructor <;> simp [run, hd, hsel, hb]
        | true =>
          cases hc2 : listingCandidates env.listing2 with
          | nil => constructor <;> simp [run, hd, hsel, hb, hc2]
          | cons e rest =>
            have e1 : run dir args ts { env with ptree := p1 } =
                runWith args { env with ptree := p1 } e
                  (["No executable found. Attempting to build first..."] ++
                    [(build dir env.buildEnv).output]) 2 1 := by
              simp [run, hd, hsel, hb, hc2]
            have e2 : run dir args ts { env with ptree := p2 } =
                runWith args { env with ptree := p2 } e
                  (["No executable found. Attempting to build first..."] ++
                    [(build dir env.buildEnv).output]) 2 1 := by
              simp [run, hd, hsel, hb, hc2]
            rw [e1, e2]
            exact runWith_ptree args env p1 p2 e _ 2 1

/-- C4 witness: the termination step applied to a concrete already-dead
process handle: the body raises, the step returns normally and leaves the
handle unchanged. -/
theorem kill_process_tree_idempotent_witness :
    (killTreeBody deadTree).2 = Except.error "psutil.NoSuchProcess" ∧
    kill_process_tree deadTree = (deadTree, [killErrLine "psutil.NoSuchProcess"]) :=
  kill_process_tree_idempotent.1 deadTree rfl

/-- C3 witness: the amended theorem applied to a concrete directory with
no candidate whose build succeeds, showing one build attempt and the
single re-location. -/
theorem run_single_build_attempt_witness :
    (run "proj" [] 60 envRebuild).2.buildCalls = 1 ∧
    (run "proj" [] 60 envRebuild).2.locateCalls = 2 :=
  ⟨(run_single_build_attempt "proj" [] 60 envRebuild rfl rfl).1,
   (run_single_build_attempt "proj" [] 60 envRebuild rfl rfl).2.2.1 (by decide)⟩

/-- C5: failures are captured as data, never as exceptions crossing the
public boundary.  `build` and `run` are total functions of their
environments by construction; moreover, when an external command raises
(`go mod tidy`, `go build`, or the `Popen` spawn), the handler converts
the exception into an output line in the returned result with
success = false. -/
theorem failures_captured_as_data :
    (∀ (dir : String) (benv : BuildEnv) (e : PyExc),
        benv.dirExists = true → (globGo benv.tree).isEmpty = false →
        benv.goModExists = true → benv.tidyOutcome = Except.error e →
        (build dir benv).success = false ∧ buildExcLine e ∈ (build dir benv).lines) ∧
    (∀ (dir : String) (benv : BuildEnv) (e : PyExc) (tp : ProcResult),
        benv.dirExists = true → (globGo benv.tree).isEmpty = false →
        benv.buildOutcome = Except.error e →
        (benv.goModExists = false ∨ benv.tidyOutcome = Except.ok tp) →
        (build dir benv).success = false ∧ buildExcLine e ∈ (build dir benv).lines) ∧
    (∀ (dir : String) (args : List String) (t : Nat) (env : RunEnv)
        (ea : String × Bool) (e : String),
        env.dirExists = true →
        selectExecutable env.dirName (listingCandidates env.listing) = some ea →
        env.spawn = Except.error e →
        (run dir args t env).1.success = false ∧
        spawnErrLine e ∈ (run dir args t env).1.lines) := by
  refine ⟨?_, ?_, ?_⟩
  · intro dir benv e hd hg hm ht
    constructor <;> simp [build, hd, hg, hm, ht]
  · intro dir benv e tp hd hg hb hdisj
    have key : ∀ (l c : List String),
        (buildStep benv l c).success = false ∧ buildExcLine e ∈ (buildStep benv l c).lines := by
      intro l c
      rw [buildStep_error benv l c e hb]
      exact ⟨rfl, by simp⟩
    rcases hdisj with hmf | ht
    · have e1 : build dir benv = buildStep benv [s!"Building Go project in {dir}..."] [] := by
        simp [build, hd, hg, hmf]
      rw [e1]; exact key _ _
    · by_cases hm : benv.goModExists = true
      · by_cases hw : tp.exitCode = 0
        · have e1 : build dir benv = buildStep benv
              ([s!"Building Go project in {dir}..."] ++
                ["Found go.mod file, running \x27go mod tidy\x27"]) ["go mod tidy"] := by
            simp [build, hd, hg, hm, ht, hw]
          rw [e1]; exact key _ _
        · have e1 : build dir benv = buildStep benv
              (([s!"Building Go project in {dir}..."] ++
                ["Found go.mod file, running \x27go mod tidy\x27"]) ++
                [tidyWarnLine (pyStrip tp.stderr)]) ["go mod tidy"] := by
            simp [build, hd, hg, hm, ht, hw]
          rw [e1]; exact key _ _
      · rw [Bool.not_eq_true] at hm
        have e1 : build dir benv = buildStep benv [s!"Building Go project in {dir}..."] [] := by
          simp [build, hd, hg, hm]
        rw [e1]; exact key _ _
  · intro dir args t env ea e hd hsel hsp
    have e1 : run dir args t env =
        runWith args env ea.1 (if ea.2 then [ambLine ea.1] else []) 1 0 := by
      simp [run, hd, hsel]
    rw [e1]
    constructor
    · simp [runWith, hsp]
    · simp [runWith, hsp, List.mem_append]

/-- C5 witness: the theorem applied to concrete environments in which
`go mod tidy` raises, `go build` raises, and `Popen` raises. -/
theorem failures_captured_as_data_witness :
    ((build "p" benvTidyErr).success = false ∧
      buildExcLine (PyExc.subprocessError "tidy boom") ∈ (build "p" benvTidyErr).lines) ∧
    ((build "p" benvBuildErr).success = false ∧
      buildExcLine (PyExc.subprocessError "build boom") ∈ (build "p" benvBuildErr).lines) ∧
    ((run "p" [] 60 envSpawnErr).1.success = false ∧
      spawnErrLine "spawn boom" ∈ (run "p" [] 60 envSpawnErr).1.lines) :=
  ⟨failures_captured_as_data.1 "p" benvTidyErr (PyExc.subprocessError "tidy boom")
      rfl rfl rfl rfl,
   failures_captured_as_data.2.1 "p" benvBuildErr (PyExc.subprocessError "build boom")
      ⟨0, "", ""⟩ rfl rfl rfl (Or.inl rfl),
   failures_captured_as_data.2.2 "p" [] 60 envSpawnErr ("proj", false) "spawn boom"
      rfl rfl rfl⟩

/-- C6 counterexample: the claim's base-name preference is false at a
concrete input.  In directory `app.v2` with candidates `zzz` then
`app.v2`, the code compares `Path.stem` (which strips `.v2`), finds no
match, and picks `zzz` with an ambiguity report; the claim's policy of
comparing the full base name would pick `app.v2` silently. -/
theorem select_basename_cex :
    selectExecutable "app.v2" ["zzz", "app.v2"] = some ("zzz", true) ∧
    selectSpecBasename "app.v2" ["zzz", "app.v2"] = some ("app.v2", false) := by
  exact ⟨by decide, by decide⟩

/-- C6 amended: with several candidates the locator prefers the first
candidate whose stem (base name stripped of its final extension, Python
`Path.stem`) equals the directory's base name, otherwise it
deterministically takes the first candidate in listing order and reports
the ambiguity — the selector coincides extensionally with that policy,
and an ambiguous selection really puts the report line into the run's
human-readable output. -/
theorem select_matches_stem_policy :
    (∀ (d : String) (cs : List String), selectExecutable d cs = selectSpecStem d cs) ∧
    (∀ (dir : String) (args : List String) (t : Nat) (env : RunEnv) (exe : String),
        env.dirExists = true →
        selectExecutable env.dirName (listingCandidates env.listing) = some (exe, true) →
        ambLine exe ∈ (run dir args t env).1.lines) := by
  constructor
  · intro d cs
    unfold selectExecutable selectSpecStem selectSpecBy
    rw [find?_eq_filterHead]
  · intro dir args t env exe hd hsel
    have e1 : run dir args t env = runWith args env exe [ambLine exe] 1 0 := by
      simp [run, hd, hsel]
    rw [e1]
    exact runWith_mem args env exe [ambLine exe] 1 0 (ambLine exe) (by simp)

/-- C6 witness: the amended theorem applied to a directory with two
candidates neither of which matches, showing the reported line in the
output of the concrete run. -/
theorem select_matches_stem_policy_witness :
    ambLine "alpha" ∈ (run "proj" [] 60 envAmb).1.lines :=
  select_matches_stem_policy.2 "proj" [] 60 envAmb "alpha" rfl (by decide)

/-- C7: a path that does not name an existing directory makes both `run`
and `build` return the directory-does-not-exist error immediately with
success = false — no process spawned, no build attempted, no external
command invoked. -/
theorem missing_directory_reported (dir : String) (args : List String) (t : Nat)
    (env : RunEnv) (benv : BuildEnv) :
    (env.dirExists = false →
      run dir args t env =
        (⟨[dirErrLine dir], false⟩, ⟨0, 0, 0, ExitStatus.notStarted, 0⟩)) ∧
    (benv.dirExists = false →
      build dir benv = ⟨[dirErrLine dir], false, []⟩) := by
  constructor
  · intro h; simp [run, h]
  · intro h; simp [build, h]

/-- C7 witness: the theorem applied to concrete environments whose
directory is missing. -/
theorem missing_directory_reported_witness :
    run "gone" [] 60 envNoDir =
      (⟨[dirErrLine "gone"], false⟩, ⟨0, 0, 0, ExitStatus.notStarted, 0⟩) ∧
    build "gone" benvNoDir = ⟨[dirErrLine "gone"], false, []⟩ :=
  ⟨(missing_directory_reported "gone" [] 60 envNoDir benvNoDir).1 rfl,
   (missing_directory_reported "gone" [] 60 envNoDir benvNoDir).2 rfl⟩

/-- C8: the HTTP handler's build-and-run operation restores the server
process's original working directory on every exit path, including the
paths on which an exception escapes the body — the `finally` block's
chdir back to the saved directory is always the last chdir performed. -/
theorem buildAndRun_restores_cwd (dir : String) (env : BAREnv) (cwd0 : String) :
    (buildAndRun dir env cwd0).cwd = cwd0 ∧
    (buildAndRun dir env cwd0).chdirCalls.getLast? = some cwd0 := by
  constructor
  · rfl
  · simp [buildAndRun]

/-- C9: the build success flag is exactly the exit-code test of the final
`go build` command; a nonzero `go mod tidy` exit only adds a warning line
and never changes the flag. -/
theorem build_success_from_build_exit (dir : String) (benv : BuildEnv) (bp : ProcResult)
    (hd : benv.dirExists = true) (hg : (globGo benv.tree).isEmpty = false)
    (hb : benv.buildOutcome = Except.ok bp) :
    (benv.goModExists = false → (build dir benv).success = decide (bp.exitCode = 0)) ∧
    (∀ tp : ProcResult, benv.tidyOutcome = Except.ok tp →
      (build dir benv).success = decide (bp.exitCode = 0) ∧
      (benv.goModExists = true → tp.exitCode ≠ 0 →
        tidyWarnLine (pyStrip tp.stderr) ∈ (build dir benv).lines)) := by
  constructor
  · intro hm
    have e1 : build dir benv = buildStep benv [s!"Building Go project in {dir}..."] [] := by
      simp [build, hd, hg, hm]
    rw [e1]; exact buildStep_success benv _ _ bp hb
  · intro tp ht
    by_cases hm : benv.goModExists = true
    · by_cases hw : tp.exitCode = 0
      · have e1 : build dir benv = buildStep benv
            ([s!"Building Go project in {dir}..."] ++
              ["Found go.mod file, running \x27go mod tidy\x27"]) ["go mod tidy"] := by
          simp [build, hd, hg, hm, ht, hw]
        rw [e1]
        exact ⟨buildStep_success benv _ _ bp hb, fun _ hne => absurd hw hne⟩
      · have e1 : build dir benv = buildStep benv
            (([s!"Building Go project in {dir}..."] ++
              ["Found go.mod file, running \x27go mod tidy\x27"]) ++
              [tidyWarnLine (pyStrip tp.stderr)]) ["go mod tidy"] := by
          simp [build, hd, hg, hm, ht, hw]
        rw [e1]
        refine ⟨buildStep_success benv _ _ bp hb, fun _ _ => ?_⟩
        exact buildStep_mem benv _ _ _ (by simp)
    · rw [Bool.not_eq_true] at hm
      have e1 : build dir benv = buildStep benv [s!"Building Go project in {dir}..."] [] := by
        simp [build, hd, hg, hm]
      rw [e1]
      exact ⟨buildStep_success benv _ _ bp hb, fun hmt _ => absurd hmt (by simp [hm])⟩

/-- C9 witness: the theorem applied to a concrete environment in which
`go mod tidy` exits 1 while `go build` exits 0: the build succeeds and
the warning line is present. -/
theorem build_success_from_build_exit_witness :
    (build "p" benvTidyWarn).success = decide ((0 : Int) = 0) ∧
    tidyWarnLine (pyStrip "dep gone") ∈ (build "p" benvTidyWarn).lines :=
  ⟨((build_success_from_build_exit "p" benvTidyWarn ⟨0, "", ""⟩ rfl rfl rfl).2
      ⟨1, "", "dep gone"⟩ rfl).1,
   ((build_success_from_build_exit "p" benvTidyWarn ⟨0, "", ""⟩ rfl rfl rfl).2
      ⟨1, "", "dep gone"⟩ rfl).2 rfl (by decide)⟩

/-- C10: an existing directory with no `.go` file anywhere in its tree
(the recursive glob is empty) makes `build` return the error message with
success = false and an empty list of invoked external commands. -/
theorem build_no_go_files_error (dir : String) (benv : BuildEnv)
    (hd : benv.dirExists = true) (hg : globGo benv.tree = []) :
    build dir benv = ⟨[noGoFilesLine dir], false, []⟩ := by
  simp [build, hd, hg]

/-- C10 witness: the theorem applied to a concrete tree whose files —
including those in a nested subdirectory — are all non-Go files. -/
theorem build_no_go_files_error_witness :
    globGo benvNoGo.tree = [] ∧
    build "docs" benvNoGo = ⟨[noGoFilesLine "docs"], false, []⟩ :=
  ⟨rfl, build_no_go_files_error "docs" benvNoGo rfl rfl⟩

end GoBuilder
